import Mathlib

/-!
Shallow embedding of the scrape-ingest-match-notify core of the job-scraper
repository (app/database.py, app/services/job_service.py,
app/services/notification_service.py, app/scrapers/scraper_factory.py,
app/scheduler.py), together with theorems settling the specification claims.

Conventions of the embedding:
* the SQLAlchemy session plus database is one immutable value of type `DB`
  threaded through the operations; `db.commit()` corresponds to returning the
  updated value, and changes staged in a session that is closed without a
  commit are reflected by returning the original value; the ingestion run,
  whose session is created with `autoflush=False` and commits once at the
  end, additionally carries a `SessionState` separating committed rows from
  staged INSERTs — which no in-run query sees — and its commit can fail on
  the unique `external_id` index, rolling the whole run back;
* timestamps are integers (seconds); `datetime.utcnow()` becomes an explicit
  `now` parameter; `timedelta(days := d)` is `d * 86400`;
* nullable SQL columns and optional Python floats are `Option Int`; an SQL
  comparison whose operand is NULL does not satisfy a filter, which the
  helpers `optLe` and `optGe` encode by returning `false` on `none`;
* external collaborators are parameters: a source adapter is represented by
  the outcome of its `scrape_jobs` call (`Except` of an exception message or
  a list of raw postings), and the SMTP delivery inside
  `_send_email_notification` by a boolean `emailOk` outcome;
* the JSON metadata column is omitted; every other column of the five tables
  in app/database.py is carried.
-/

/-- Case-insensitive substring test: the SQLAlchemy `ilike` filter applied as
`column.ilike(f"%pat%")` in job_service.py and scheduler.py. -/
def ilike (field pat : String) : Bool :=
  decide (pat.toLower.toList <:+: field.toLower.toList)

/-- `v <= column` for a nullable column: NULL compares as unsatisfied. -/
def optLe (v : Int) (column : Option Int) : Bool :=
  match column with
  | some m => decide (v ≤ m)
  | none => false

/-- `column <= v` for a nullable column: NULL compares as unsatisfied. -/
def optGe (v : Int) (column : Option Int) : Bool :=
  match column with
  | some m => decide (m ≤ v)
  | none => false

/-- Row of the `users` table (app/database.py:15-26). -/
structure User where
  id : Nat
  email : String
  name : String
  is_active : Bool
deriving DecidableEq

/-- Row of the `search_profiles` table (app/database.py:29-45). -/
structure SearchProfile where
  id : Nat
  user_id : Nat
  name : String
  keywords : List String
  location : Option String
  job_type : Option String
  experience_level : Option String
  salary_min : Option Int
  salary_max : Option Int
  is_active : Bool
deriving DecidableEq

/-- Row of the `job_listings` table (app/database.py:48-71); `scraped_at` is
the ingestion timestamp. The JSON `job_metadata` column is omitted. -/
structure JobListing where
  id : Nat
  external_id : String
  title : String
  company : String
  location : String
  job_type : Option String
  salary_min : Option Int
  salary_max : Option Int
  salary_currency : String
  description : String
  requirements : List String
  skills : List String
  experience_level : Option String
  application_url : String
  source_site : String
  posted_date : Option Int
  scraped_at : Int
  is_active : Bool
deriving DecidableEq

/-- Row of the `notifications` table (app/database.py:74-86). -/
structure Notification where
  id : Nat
  user_id : Nat
  job_listing_id : Nat
  search_profile_id : Nat
  sent_at : Int
  notification_type : String
  status : String
deriving DecidableEq

/-- Row of the `scraping_logs` table (app/database.py:89-100), restricted to
the counters (the free-text and timestamp columns play no role in any claim). -/
structure ScrapingLog where
  source_site : String
  jobs_found : Nat
  jobs_new : Nat
  jobs_updated : Nat
deriving DecidableEq

/-- The relational store: all five tables plus the autoincrement counters for
the two primary keys the core allocates. -/
structure DB where
  users : List User
  search_profiles : List SearchProfile
  job_listings : List JobListing
  notifications : List Notification
  scraping_logs : List ScrapingLog
  nextJobId : Nat
  nextNotificationId : Nat
deriving DecidableEq

/-- The pydantic `NotificationCreate` model (app/models.py:150-154). -/
structure NotificationCreate where
  user_id : Nat
  job_listing_id : Nat
  search_profile_id : Nat
  notification_type : String
deriving DecidableEq

/-- A normalized scraped record: the dict built by the scrapers
(e.g. indeed_scraper.py:166-183), which always carries all of these keys. -/
structure RawPosting where
  external_id : String
  title : String
  company : String
  location : String
  job_type : Option String
  salary_min : Option Int
  salary_max : Option Int
  salary_currency : String
  description : String
  requirements : List String
  skills : List String
  experience_level : Option String
  application_url : String
  source_site : String
  posted_date : Option Int
  scraped_at : Int
deriving DecidableEq

/-! ## Profile matcher (app/scheduler.py:139-186 and app/services/job_service.py:138-179) -/

/-- Keyword clause (scheduler.py:154-163): OR across keywords, each an OR of
`ilike` over title, description and company. -/
def keyword_filter (p : SearchProfile) (j : JobListing) : Bool :=
  p.keywords.any fun kw => ilike j.title kw || ilike j.description kw || ilike j.company kw

/-- The keyword filter is applied only when `profile.keywords` is truthy
(scheduler.py:154): a missing or empty list skips it. -/
def keyword_ok (p : SearchProfile) (j : JobListing) : Bool :=
  if p.keywords.isEmpty then true else keyword_filter p j

/-- Location clause (scheduler.py:166-167): applied only when
`profile.location` is truthy; an empty string is falsy in Python. -/
def location_ok (p : SearchProfile) (j : JobListing) : Bool :=
  match p.location with
  | some loc => if loc = "" then true else ilike j.location loc
  | none => true

/-- Job-type clause (scheduler.py:170-171): applied when `profile.job_type`
is truthy and not the value "any"; SQL equality with a NULL column fails. -/
def job_type_ok (p : SearchProfile) (j : JobListing) : Bool :=
  match p.job_type with
  | some t => if t = "" ∨ t = "any" then true else j.job_type == some t
  | none => true

/-- Experience-level clause (scheduler.py:174-175), same shape as job type. -/
def experience_ok (p : SearchProfile) (j : JobListing) : Bool :=
  match p.experience_level with
  | some t => if t = "" ∨ t = "any" then true else j.experience_level == some t
  | none => true

/-- Salary clauses shared verbatim by JobScheduler (scheduler.py:177-181) and
JobService.search_jobs (job_service.py:166-170): each bound is applied only
when truthy (`None` and `0` both skip it, Python falsy), and compares against
the opposite nullable column of the posting. -/
def salary_filter (smin smax : Option Int) (j : JobListing) : Bool :=
  (match smin with
   | some v => if v = 0 then true else optLe v j.salary_max
   | none => true)
  &&
  (match smax with
   | some v => if v = 0 then true else optGe v j.salary_min
   | none => true)

/-- JobScheduler._find_new_jobs_for_profile (scheduler.py:139-186): the AND of
the optional clauses over active postings inside the lookback window
(`scraped_at >= yesterday`), ordered most-recently-scraped first. -/
def find_new_jobs_for_profile (db : DB) (p : SearchProfile) (yesterday : Int) :
    List JobListing :=
  (db.job_listings.filter fun j =>
      j.is_active && decide (yesterday ≤ j.scraped_at)
      && keyword_ok p j && location_ok p j && job_type_ok p j
      && experience_ok p j && salary_filter p.salary_min p.salary_max j).mergeSort
    fun a b => decide (b.scraped_at ≤ a.scraped_at)

/-- The pydantic `JobSearchRequest` (app/models.py:139-147); the two enum
fields always hold one of their enum values, with default "any". -/
structure JobSearchRequest where
  keywords : List String
  location : Option String
  job_type : String
  experience_level : String
  salary_min : Option Int
  salary_max : Option Int
  limit : Nat
  offset : Nat
deriving DecidableEq

/-- JobService.search_jobs (job_service.py:138-179): same clause structure as
the scheduler matcher but over all active postings, with pagination. -/
def search_jobs (db : DB) (r : JobSearchRequest) : List JobListing :=
  (((db.job_listings.filter fun j =>
      j.is_active
      && (if r.keywords.isEmpty then true
          else r.keywords.any fun kw =>
            ilike j.title kw || ilike j.description kw || ilike j.company kw)
      && (match r.location with
          | some loc => if loc = "" then true else ilike j.location loc
          | none => true)
      && (if r.job_type = "any" then true else j.job_type == some r.job_type)
      && (if r.experience_level = "any" then true
          else j.experience_level == some r.experience_level)
      && salary_filter r.salary_min r.salary_max j).mergeSort
      fun a b => decide (b.scraped_at ≤ a.scraped_at)).drop r.offset).take r.limit

/-! ## Ingestion engine (app/scrapers/scraper_factory.py and app/services/job_service.py) -/

/-- JobService._create_job_listing (job_service.py:98-119): a fresh row with
`is_active := true` and the scraper-reported `scraped_at`. -/
def create_job_listing (nextId : Nat) (raw : RawPosting) : JobListing :=
  { id := nextId
    external_id := raw.external_id
    title := raw.title
    company := raw.company
    location := raw.location
    job_type := raw.job_type
    salary_min := raw.salary_min
    salary_max := raw.salary_max
    salary_currency := raw.salary_currency
    description := raw.description
    requirements := raw.requirements
    skills := raw.skills
    experience_level := raw.experience_level
    application_url := raw.application_url
    source_site := raw.source_site
    posted_date := raw.posted_date
    scraped_at := raw.scraped_at
    is_active := true }

/-- JobService._update_job_listing (job_service.py:121-136): overwrite the
mutable fields from the scraped dict (whose keys are always present) and
refresh `scraped_at` to the current time; `id`, `external_id`,
`salary_currency`, `source_site` and `is_active` are untouched. -/
def update_job_listing (j : JobListing) (raw : RawPosting) (now : Int) : JobListing :=
  { j with
    title := raw.title
    company := raw.company
    location := raw.location
    job_type := raw.job_type
    salary_min := raw.salary_min
    salary_max := raw.salary_max
    description := raw.description
    requirements := raw.requirements
    skills := raw.skills
    experience_level := raw.experience_level
    application_url := raw.application_url
    posted_date := raw.posted_date
    scraped_at := now }

/-- In-place update of the first row whose `external_id` matches, mirroring
mutation of the ORM object returned by `.first()`. -/
def updateFirstByKey (jobs : List JobListing) (raw : RawPosting) (now : Int) :
    List JobListing :=
  match jobs with
  | [] => []
  | j :: js =>
    if j.external_id = raw.external_id then update_job_listing j raw now :: js
    else j :: updateFirstByKey js raw now

/-- The state of the one SQLAlchemy session of an ingestion run. The session
is created with `autoflush=False` (database.py:9) and commits exactly once at
the end of the run (job_service.py:88), so during the run a query sees only
the rows that were committed before the run started: `loadedJobs` are those
rows as identity-mapped ORM objects (in-run mutations included — a re-query
returns the mutated object, and updates never change `external_id`, so
lookups by key behave as on the committed values), while `stagedInserts` are
the rows added with `db.add()` that no in-run query can see. -/
structure SessionState where
  loadedJobs : List JobListing
  stagedInserts : List JobListing
  stagedLogs : List ScrapingLog
  nextJobId : Nat
deriving DecidableEq

/-- The per-record body of the ingestion loop (job_service.py:36-51): look up
an existing row by `external_id` — against the committed rows only, since the
session never flushes before the final commit — update it in place when
present, otherwise stage a new row. The boolean reports whether the record
counted as new. -/
def processRaw (now : Int) (s : SessionState) (raw : RawPosting) :
    SessionState × Bool :=
  match s.loadedJobs.find? (fun j => j.external_id == raw.external_id) with
  | some _ => ({ s with loadedJobs := updateFirstByKey s.loadedJobs raw now }, false)
  | none =>
    ({ s with
        stagedInserts := s.stagedInserts ++ [create_job_listing s.nextJobId raw]
        nextJobId := s.nextJobId + 1 }, true)

/-- One site of the ingestion loop (job_service.py:36-56): process each raw
record, tallying `(new, updated)`. -/
def processSiteJobs (now : Int) (s : SessionState) :
    List RawPosting → SessionState × Nat × Nat
  | [] => (s, 0, 0)
  | raw :: raws =>
    let step := processRaw now s raw
    let rest := processSiteJobs now step.1 raws
    if step.2 then (rest.1, rest.2.1 + 1, rest.2.2) else (rest.1, rest.2.1, rest.2.2 + 1)

/-- The per-site loop of scrape_and_store_jobs (job_service.py:30-85): for
each site, ingest its records, stage one ScrapingLog row, and accumulate the
`(found, new, updated)` totals. -/
def processSites (now : Int) (s : SessionState) :
    List (String × List RawPosting) → SessionState × Nat × Nat × Nat
  | [] => (s, 0, 0, 0)
  | (site, jobs) :: rest =>
    let sj := processSiteJobs now s jobs
    let logged :=
      { sj.1 with
        stagedLogs := sj.1.stagedLogs ++
          [{ source_site := site, jobs_found := jobs.length,
             jobs_new := sj.2.1, jobs_updated := sj.2.2 }] }
    let r := processSites now logged rest
    (r.1, jobs.length + r.2.1, sj.2.1 + r.2.2.1, sj.2.2 + r.2.2.2)

/-- ScraperFactory.scrape_all_sites (scraper_factory.py:47-61): each adapter
is represented by the outcome of its `scrape_jobs` call. A raised exception is
caught, a log line is emitted (second component), and the site contributes an
empty list to the results dict. -/
def scrape_all_sites :
    List (String × Except String (List RawPosting)) →
    List (String × List RawPosting) × List String
  | [] => ([], [])
  | (site, Except.ok jobs) :: rest =>
    let r := scrape_all_sites rest
    ((site, jobs) :: r.1, r.2)
  | (site, Except.error e) :: rest =>
    let r := scrape_all_sites rest
    ((site, []) :: r.1, ("Error scraping " ++ site ++ ": " ++ e) :: r.2)

/-- The summary dict returned by JobService.scrape_and_store_jobs
(job_service.py:90-96). -/
structure IngestSummary where
  total_jobs_found : Nat
  total_jobs_new : Nat
  total_jobs_updated : Nat
  errors : List String
  sites_scraped : List String
deriving DecidableEq

/-- The check the unique index on `external_id` (database.py:52) performs on
the final commit: every staged INSERT must carry a key distinct from every
other staged INSERT and from every existing row; updates never change keys
and are not re-checked. -/
def commit_ok (s : SessionState) : Bool :=
  decide ((s.stagedInserts.map fun j => j.external_id).Nodup) &&
  s.stagedInserts.all fun j => !(s.loadedJobs.any fun j0 => j0.external_id == j.external_id)

/-- JobService.scrape_and_store_jobs (job_service.py:19-96): fetch from every
adapter via the factory, reconcile all results into the one session, and
commit once at the end (job_service.py:88). If the staged INSERTs violate the
unique `external_id` index — two new rows with the same key in one run — the
commit raises IntegrityError, the whole run is rolled back (second component
`Except.error`, store unchanged) and the exception propagates to the caller.
Otherwise the summary is returned; its `errors` list is appended to only
inside the two exception handlers for record- and site-level processing
(job_service.py:53-56 and 82-85), no such exception can arise for well-formed
RawPosting values, so it is empty — in particular an adapter exception never
reaches it, having been swallowed by the factory. -/
def scrape_and_store_jobs (now : Int) (db : DB)
    (adapters : List (String × Except String (List RawPosting))) :
    DB × Except String IngestSummary × List String :=
  let fetched := scrape_all_sites adapters
  let s0 : SessionState :=
    { loadedJobs := db.job_listings, stagedInserts := [], stagedLogs := [],
      nextJobId := db.nextJobId }
  let r := processSites now s0 fetched.1
  if commit_ok r.1 then
    ({ db with
        job_listings := r.1.loadedJobs ++ r.1.stagedInserts
        scraping_logs := db.scraping_logs ++ r.1.stagedLogs
        nextJobId := r.1.nextJobId },
     Except.ok
       { total_jobs_found := r.2.1
         total_jobs_new := r.2.2.1
         total_jobs_updated := r.2.2.2
         errors := []
         sites_scraped := fetched.1.map Prod.fst },
     fetched.2)
  else
    (db,
     Except.error "IntegrityError: UNIQUE constraint failed on external_id",
     fetched.2)

/-! ## Notification dispatcher (app/services/notification_service.py) -/

def find_user (db : DB) (uid : Nat) : Option User :=
  db.users.find? fun u => u.id == uid

def find_job_listing (db : DB) (jid : Nat) : Option JobListing :=
  db.job_listings.find? fun j => j.id == jid

def find_search_profile (db : DB) (pid : Nat) : Option SearchProfile :=
  db.search_profiles.find? fun p => p.id == pid

/-- Assign `status` to the first notification row with the given id, mirroring
mutation of the ORM object found by `.first()`. -/
def setStatusFirst (l : List Notification) (nid : Nat) (s : String) :
    List Notification :=
  match l with
  | [] => []
  | r :: rs =>
    if r.id = nid then { r with status := s } :: rs
    else r :: setStatusFirst rs nid s

/-- NotificationService.send_job_notification (notification_service.py:25-62).
Looks up user, job and profile; on any miss returns False having changed
nothing. Otherwise it unconditionally creates a new Notification row with
status "pending" and commits it — there is no check for an existing row for
the (user, profile, posting) triple. For the email type it then performs one
SMTP delivery attempt (outcome `emailOk`), sets the status to "sent" or
"failed", commits again and returns the delivery outcome; for any other type
it returns True with the row left "pending" and no send attempted. The last
component counts MessageSender invocations. -/
def send_job_notification (db : DB) (nd : NotificationCreate) (now : Int)
    (emailOk : Bool) : DB × Bool × Nat :=
  match find_user db nd.user_id, find_job_listing db nd.job_listing_id,
        find_search_profile db nd.search_profile_id with
  | some _, some _, some _ =>
    let notif : Notification :=
      { id := db.nextNotificationId
        user_id := nd.user_id
        job_listing_id := nd.job_listing_id
        search_profile_id := nd.search_profile_id
        sent_at := now
        notification_type := nd.notification_type
        status := "pending" }
    let db1 := { db with
      notifications := db.notifications ++ [notif]
      nextNotificationId := db.nextNotificationId + 1 }
    if nd.notification_type = "email" then
      let db2 := { db1 with
        notifications :=
          setStatusFirst db1.notifications notif.id
            (if emailOk then "sent" else "failed") }
      (db2, emailOk, 1)
    else (db1, true, 0)
  | _, _, _ => (db, false, 0)

/-- NotificationService.mark_notification_read (notification_service.py:204-215):
sets the status of an existing notification to "read". -/
def mark_notification_read (db : DB) (nid : Nat) : DB × Bool :=
  match db.notifications.find? (fun r => r.id == nid) with
  | some _ => ({ db with notifications := setStatusFirst db.notifications nid "read" }, true)
  | none => (db, false)

/-! ## Retention sweep and scheduler loop (app/scheduler.py) -/

/-- JobScheduler.cleanup_old_data (scheduler.py:188-220). The Python stages
deletions of the listings with `scraped_at < now - 90 days`, but scheduler.py
imports only get_db, SearchProfile, JobListing and User from app.database
(scheduler.py:6): evaluating the bare name Notification at scheduler.py:206
raises NameError, the `except Exception` block catches and logs it, and
`db.commit()` at scheduler.py:213 is never reached. Closing the session
discards the staged deletions, so the store is returned unchanged together
with the caught error. -/
def cleanup_old_data (db : DB) (now : Int) : DB × Except String (Nat × Nat) :=
  let ninety_days_ago := now - 90 * 86400
  let staged := db.job_listings.filter fun j => decide (j.scraped_at < ninety_days_ago)
  (db, Except.error
        ("NameError: name Notification is not defined; "
          ++ toString staged.length ++ " staged deletions rolled back"))

/-- A raised Python exception, split by whether `except Exception` catches it:
KeyboardInterrupt derives from BaseException and passes through. -/
inductive PyExc
  | exc (msg : String)
  | keyboardInterrupt
deriving DecidableEq

/-- The scheduler loop state: still running, and completed tick count. -/
structure LoopState where
  running : Bool
  ticks : Nat
deriving DecidableEq

/-- `schedule.run_pending()`: runs the due tasks in order; the first raised
exception propagates and the remaining tasks of the tick do not run. -/
def run_pending : List (Except PyExc Unit) → Except PyExc Unit
  | [] => Except.ok ()
  | Except.ok _ :: rest => run_pending rest
  | Except.error e :: _ => Except.error e

/-- Each scheduled task body (run_job_scraping, check_and_send_notifications,
cleanup_old_data) is wrapped in `try ... except Exception` (scheduler.py:40-82,
88-137, 192-220): an Exception escaping the body is caught and logged at the
task boundary; only a BaseException such as KeyboardInterrupt escapes. -/
def task_boundary : Except PyExc Unit → Except PyExc Unit
  | Except.error (PyExc.exc _) => Except.ok ()
  | r => r

/-- One iteration of JobScheduler.start (scheduler.py:222-235): run the due
tasks behind their boundaries; `except Exception` logs and continues after a
sleep, while KeyboardInterrupt breaks the loop. -/
def scheduler_step (taskResults : List (Except PyExc Unit)) (s : LoopState) :
    LoopState :=
  if s.running then
    match run_pending (taskResults.map task_boundary) with
    | Except.ok _ => { s with ticks := s.ticks + 1 }
    | Except.error (PyExc.exc _) => { s with ticks := s.ticks + 1 }
    | Except.error PyExc.keyboardInterrupt => { s with running := false }
  else s

/-! ## Concrete fixtures -/

/-- An empty store with fresh autoincrement counters. -/
def emptyDB : DB :=
  { users := [], search_profiles := [], job_listings := [], notifications := [],
    scraping_logs := [], nextJobId := 1, nextNotificationId := 1 }

/-- A well-formed scraped record, echoing the scenario of the specification. -/
def rawA : RawPosting :=
  { external_id := "a1", title := "Python Engineer", company := "Acme",
    location := "New York", job_type := some "remote",
    salary_min := some 100000, salary_max := some 140000,
    salary_currency := "USD", description := "Build backend services",
    requirements := [], skills := ["python"], experience_level := some "mid",
    application_url := "", source_site := "linkedin", posted_date := none,
    scraped_at := 0 }

/-- A second scraped record with a distinct external key, from another site. -/
def rawB : RawPosting :=
  { rawA with external_id := "b1", title := "Data Engineer", source_site := "indeed" }

def userOne : User := { id := 1, email := "u@example.com", name := "U", is_active := true }

def jobOne : JobListing := create_job_listing 1 rawA

def profileOne : SearchProfile :=
  { id := 1, user_id := 1, name := "ml jobs", keywords := ["python"],
    location := none, job_type := none, experience_level := none,
    salary_min := none, salary_max := none, is_active := true }

/-- A store holding one user, one posting and one profile. -/
def dbOne : DB :=
  { emptyDB with
    users := [userOne]
    job_listings := [jobOne]
    search_profiles := [profileOne]
    nextJobId := 2 }

def ndOne : NotificationCreate :=
  { user_id := 1, job_listing_id := 1, search_profile_id := 1,
    notification_type := "email" }

/-- A posting scraped 91 days before time zero. -/
def oldJob : JobListing :=
  { jobOne with
    id := 9
    external_id := "old1"
    scraped_at := -(91 * 86400) }

/-! ## C7: the retention sweep -/

/-- C7. The claim states that one retention sweep removes every JobPosting
older than 90 days and every NotificationRecord older than 30 days in a
single commit. The code cannot do this: scheduler.py never imports
Notification, so cleanup_old_data raises NameError before reaching commit,
the handler swallows it, and the store is returned untouched — in particular
a posting ingested 91 days ago is still present after the sweep. -/
theorem C7_cleanup_removes_nothing (db : DB) (now : Int) :
    (cleanup_old_data db now).1 = db ∧
    (∃ msg, (cleanup_old_data db now).2 = Except.error msg) ∧
    oldJob ∈ (cleanup_old_data { emptyDB with job_listings := [oldJob] } 0).1.job_listings := by
  refine ⟨rfl, ⟨_, rfl⟩, ?_⟩
  simp [cleanup_old_data]

/-! ## C8: the scheduler loop survives task failures -/

/-- Helper: once every task failure is an ordinary Exception (caught at the
task boundary), running the pending tasks raises nothing. -/
theorem run_pending_ok (l : List (Except PyExc Unit))
    (h : ∀ r ∈ l, r ≠ Except.error PyExc.keyboardInterrupt) :
    run_pending (l.map task_boundary) = Except.ok () := by
  induction l with
  | nil => rfl
  | cons r rest ih =>
    have hr := h r (List.mem_cons_self r rest)
    have ihr : run_pending (rest.map task_boundary) = Except.ok () :=
      ih fun x hx => h x (List.mem_cons_of_mem r hx)
    cases r with
    | ok u => simpa [run_pending, task_boundary] using ihr
    | error e =>
      cases e with
      | exc m => simpa [run_pending, task_boundary] using ihr
      | keyboardInterrupt => exact absurd rfl hr

/-- C8. Every exception raised by a scheduled task during a tick (any
Exception, as opposed to a user KeyboardInterrupt) is caught — inside the
task body or by the `except Exception` arm of the loop — so the loop is still
running afterwards and the tick completes, letting the next tick proceed. -/
theorem C8_loop_survives_task_failures (results : List (Except PyExc Unit))
    (s : LoopState) (hrun : s.running = true)
    (hnoint : ∀ r ∈ results, r ≠ Except.error PyExc.keyboardInterrupt) :
    (scheduler_step results s).running = true ∧
    (scheduler_step results s).ticks = s.ticks + 1 := by
  have hok := run_pending_ok results hnoint
  simp [scheduler_step, hrun, hok]

/-- Witness for C8 at a tick whose only task raises an Exception. -/
theorem C8_loop_survives_task_failures_witness :
    (scheduler_step [Except.error (PyExc.exc "boom")] { running := true, ticks := 0 }).running = true ∧
    (scheduler_step [Except.error (PyExc.exc "boom")] { running := true, ticks := 0 }).ticks = 0 + 1 :=
  C8_loop_survives_task_failures _ _ rfl fun r hr => by
    rw [List.mem_singleton] at hr
    subst hr
    intro hcontra
    injection hcontra with h
    exact PyExc.noConfusion h

/-! ## C9: a zero salary bound is skipped -/

/-- A posting carrying no salary information. -/
def noSalaryJob : JobListing := { jobOne with salary_min := none, salary_max := none }

/-- C9. Python truthiness makes a zero bound behave exactly like an unset
bound in the salary clauses of both the scheduler matcher and search_jobs:
the clause is skipped, so every posting — with or without salary fields —
passes the salary filter of a profile whose bounds are zero. -/
theorem C9_zero_salary_bound_skipped (smin smax : Option Int) (j : JobListing) :
    salary_filter (some 0) smax j = salary_filter none smax j ∧
    salary_filter smin (some 0) j = salary_filter smin none j ∧
    ((smin = none ∨ smin = some 0) → (smax = none ∨ smax = some 0) →
      salary_filter smin smax j = true) := by
  refine ⟨by simp [salary_filter], by cases smin <;> simp [salary_filter], ?_⟩
  rintro (rfl | rfl) (rfl | rfl) <;> simp [salary_filter]

/-- Witness for C9: a profile with both bounds zero accepts a posting that
has no salary fields at all. -/
theorem C9_zero_salary_bound_skipped_witness :
    salary_filter (some 0) (some 0) noSalaryJob = true :=
  (C9_zero_salary_bound_skipped (some 0) (some 0) noSalaryJob).2.2 (Or.inr rfl) (Or.inr rfl)

/-! ## C10: dispatch with dangling references -/

/-- C10. When the referenced user, posting or profile is absent, the
dispatcher returns False, creates no NotificationRecord and attempts no
send: the store is returned unchanged. -/
theorem C10_missing_reference_noop (db : DB) (nd : NotificationCreate)
    (now : Int) (emailOk : Bool)
    (h : find_user db nd.user_id = none ∨ find_job_listing db nd.job_listing_id = none ∨
         find_search_profile db nd.search_profile_id = none) :
    send_job_notification db nd now emailOk = (db, false, 0) := by
  unfold send_job_notification
  rcases hu : find_user db nd.user_id with _ | u
  · rfl
  · rcases hj : find_job_listing db nd.job_listing_id with _ | j
    · rfl
    · rcases hp : find_search_profile db nd.search_profile_id with _ | p
      · rfl
      · exfalso
        rcases h with h | h | h
        · rw [hu] at h; exact Option.noConfusion h
        · rw [hj] at h; exact Option.noConfusion h
        · rw [hp] at h; exact Option.noConfusion h

/-- A dispatch request referencing a nonexistent user. -/
def ndMissingUser : NotificationCreate := { ndOne with user_id := 99 }

/-- Witness for C10 on a request whose user id matches no row. -/
theorem C10_missing_reference_noop_witness :
    send_job_notification dbOne ndMissingUser 0 true = (dbOne, false, 0) :=
  C10_missing_reference_noop dbOne ndMissingUser 0 true (Or.inl (by decide))

/-! ## C4: salary overlap semantics -/

/-- Characterization of the lower-bound salary clause. -/
theorem salary_min_clause_iff (smin : Option Int) (j : JobListing) :
    ((match smin with
      | some v => if v = 0 then true else optLe v j.salary_max
      | none => true) = true)
      ↔ (∀ v, smin = some v → v ≠ 0 → ∃ m, j.salary_max = some m ∧ v ≤ m) := by
  rcases smin with _ | v
  · simp
  · by_cases h0 : v = 0
    · subst h0; simp
    · rcases hm : j.salary_max with _ | m <;> simp [optLe, hm, h0]

/-- Characterization of the upper-bound salary clause. -/
theorem salary_max_clause_iff (smax : Option Int) (j : JobListing) :
    ((match smax with
      | some v => if v = 0 then true else optGe v j.salary_min
      | none => true) = true)
      ↔ (∀ v, smax = some v → v ≠ 0 → ∃ m, j.salary_min = some m ∧ m ≤ v) := by
  rcases smax with _ | v
  · simp
  · by_cases h0 : v = 0
    · subst h0; simp
    · rcases hm : j.salary_min with _ | m <;> simp [optGe, hm, h0]

/-- C4. For a profile with at least one salary bound set, a posting passes
the salary filter exactly when its salary interval meets each set bound:
`posting.salary_max >= profile.salary_min` for a set lower bound and
`posting.salary_min <= profile.salary_max` for a set upper bound, a NULL
posting column failing the comparison — so a posting with no salary fields
never passes a salary-bounded profile. -/
theorem C4_salary_overlap (smin smax : Option Int) (j : JobListing)
    (_hset : (∃ a, smin = some a ∧ a ≠ 0) ∨ (∃ b, smax = some b ∧ b ≠ 0)) :
    salary_filter smin smax j = true ↔
      ((∀ a, smin = some a → a ≠ 0 → ∃ m, j.salary_max = some m ∧ a ≤ m) ∧
       (∀ b, smax = some b → b ≠ 0 → ∃ m, j.salary_min = some m ∧ m ≤ b)) := by
  unfold salary_filter
  rw [Bool.and_eq_true]
  exact and_congr (salary_min_clause_iff smin j) (salary_max_clause_iff smax j)

/-- The posting of the boundary scenario: salary interval 90000 to 110000. -/
def posting90 : JobListing :=
  { jobOne with
    salary_min := some 90000
    salary_max := some 110000 }

/-- Witness for C4: the posting with interval 90000-110000 overlaps a profile
whose lower bound is 100000 and whose upper bound is unset. -/
theorem C4_salary_overlap_witness :
    salary_filter (some 100000) none posting90 = true :=
  (C4_salary_overlap (some 100000) none posting90
      (Or.inl ⟨100000, rfl, by norm_num⟩)).mpr
    ⟨fun a ha h0 => by
        rw [Option.some.injEq] at ha
        subst ha
        exact ⟨110000, rfl, by norm_num⟩,
     fun b hb h0 => by exact Option.noConfusion hb⟩

/-! ## Dispatcher lemmas shared by C1 and C6 -/

/-- setStatusFirst preserves the number of rows. -/
theorem setStatusFirst_length (l : List Notification) (nid : Nat) (s : String) :
    (setStatusFirst l nid s).length = l.length := by
  induction l with
  | nil => rfl
  | cons r rs ih =>
    by_cases h : r.id = nid <;> simp [setStatusFirst, h, ih]

/-- When the appended row carries a fresh id, setStatusFirst rewrites exactly
that row. -/
theorem setStatusFirst_append_fresh (l : List Notification) (notif : Notification)
    (s : String) (h : ∀ r ∈ l, r.id ≠ notif.id) :
    setStatusFirst (l ++ [notif]) notif.id s = l ++ [{ notif with status := s }] := by
  induction l with
  | nil => simp [setStatusFirst]
  | cons r rs ih =>
    have hr : r.id ≠ notif.id := h r (List.mem_cons_self r rs)
    have ihr := ih fun x hx => h x (List.mem_cons_of_mem r hx)
    simp [setStatusFirst, hr, ihr]

/-- Rows produced by setStatusFirst are old rows or an old row with the new
status. -/
theorem mem_setStatusFirst (l : List Notification) (nid : Nat) (s : String)
    (r : Notification) (hr : r ∈ setStatusFirst l nid s) :
    r ∈ l ∨ ∃ r0 ∈ l, r = { r0 with status := s } := by
  induction l with
  | nil => exact absurd hr (by simp [setStatusFirst])
  | cons x xs ih =>
    by_cases hx : x.id = nid
    · rw [setStatusFirst, if_pos hx] at hr
      rcases List.mem_cons.mp hr with h | h
      · exact Or.inr ⟨x, List.mem_cons_self x xs, h⟩
      · exact Or.inl (List.mem_cons_of_mem x h)
    · rw [setStatusFirst, if_neg hx] at hr
      rcases List.mem_cons.mp hr with h | h
      · exact Or.inl (h ▸ List.mem_cons_self x xs)
      · rcases ih h with h2 | ⟨r0, hr0, he⟩
        · exact Or.inl (List.mem_cons_of_mem x h2)
        · exact Or.inr ⟨r0, List.mem_cons_of_mem x hr0, he⟩

/-- The dispatcher never touches the users, job_listings or search_profiles
tables. -/
theorem send_job_notification_tables (db : DB) (nd : NotificationCreate)
    (now : Int) (emailOk : Bool) :
    (send_job_notification db nd now emailOk).1.users = db.users ∧
    (send_job_notification db nd now emailOk).1.job_listings = db.job_listings ∧
    (send_job_notification db nd now emailOk).1.search_profiles = db.search_profiles := by
  unfold send_job_notification
  rcases find_user db nd.user_id with _ | u
  · exact ⟨rfl, rfl, rfl⟩
  rcases find_job_listing db nd.job_listing_id with _ | j
  · exact ⟨rfl, rfl, rfl⟩
  rcases find_search_profile db nd.search_profile_id with _ | p
  · exact ⟨rfl, rfl, rfl⟩
  by_cases ht : nd.notification_type = "email" <;> simp [ht]

/-- One successful-lookup email dispatch: exactly one row is appended and
exactly one send is attempted. -/
theorem send_job_notification_email_step (db : DB) (nd : NotificationCreate)
    (now : Int) (emailOk : Bool)
    (hu : (find_user db nd.user_id).isSome = true)
    (hj : (find_job_listing db nd.job_listing_id).isSome = true)
    (hp : (find_search_profile db nd.search_profile_id).isSome = true)
    (ht : nd.notification_type = "email") :
    (send_job_notification db nd now emailOk).1.notifications.length =
      db.notifications.length + 1 ∧
    (send_job_notification db nd now emailOk).2.2 = 1 := by
  obtain ⟨u, hu⟩ := Option.isSome_iff_exists.mp hu
  obtain ⟨j, hj⟩ := Option.isSome_iff_exists.mp hj
  obtain ⟨p, hp⟩ := Option.isSome_iff_exists.mp hp
  unfold send_job_notification
  rw [hu, hj, hp]
  simp [ht, setStatusFirst_length]

/-! ## C1: dispatch is not idempotent -/

/-- C1 counterexample. On a store holding the triple (user 1, profile 1,
posting 1) and no notifications, dispatching the same triple twice creates
two NotificationRecords and performs two sends, and the second call reports
plain success instead of an already-notified outcome — there is no
existence check in send_job_notification. -/
theorem C1_counterexample :
    (send_job_notification (send_job_notification dbOne ndOne 100 true).1 ndOne 200 true).1.notifications.length = 2 ∧
    (send_job_notification (send_job_notification dbOne ndOne 100 true).1 ndOne 200 true).2.1 = true ∧
    (send_job_notification dbOne ndOne 100 true).2.2 +
      (send_job_notification (send_job_notification dbOne ndOne 100 true).1 ndOne 200 true).2.2 = 2 := by
  exact ⟨rfl, rfl, rfl⟩

/-- C1 amended. The dispatcher performs no existence check: every call whose
three references resolve creates a fresh NotificationRecord and (for the
email type) performs exactly one send, so dispatching the same triple twice
yields two records and two send invocations. -/
theorem C1_dispatch_not_idempotent (db : DB) (nd : NotificationCreate)
    (now1 now2 : Int) (ok1 ok2 : Bool)
    (hu : (find_user db nd.user_id).isSome = true)
    (hj : (find_job_listing db nd.job_listing_id).isSome = true)
    (hp : (find_search_profile db nd.search_profile_id).isSome = true)
    (ht : nd.notification_type = "email") :
    (send_job_notification (send_job_notification db nd now1 ok1).1 nd now2 ok2).1.notifications.length =
      db.notifications.length + 2 ∧
    (send_job_notification db nd now1 ok1).2.2 = 1 ∧
    (send_job_notification (send_job_notification db nd now1 ok1).1 nd now2 ok2).2.2 = 1 := by
  have h1 := send_job_notification_email_step db nd now1 ok1 hu hj hp ht
  have htab := send_job_notification_tables db nd now1 ok1
  have hu2 : (find_user (send_job_notification db nd now1 ok1).1 nd.user_id).isSome = true := by
    unfold find_user at hu ⊢; rw [htab.1]; exact hu
  have hj2 : (find_job_listing (send_job_notification db nd now1 ok1).1 nd.job_listing_id).isSome = true := by
    unfold find_job_listing at hj ⊢; rw [htab.2.1]; exact hj
  have hp2 : (find_search_profile (send_job_notification db nd now1 ok1).1 nd.search_profile_id).isSome = true := by
    unfold find_search_profile at hp ⊢; rw [htab.2.2]; exact hp
  have h2 := send_job_notification_email_step (send_job_notification db nd now1 ok1).1
    nd now2 ok2 hu2 hj2 hp2 ht
  exact ⟨by rw [h2.1, h1.1], h1.2, h2.2⟩

/-- Witness for the amended C1 on the concrete store. -/
theorem C1_dispatch_not_idempotent_witness :
    (send_job_notification (send_job_notification dbOne ndOne 10 true).1 ndOne 20 true).1.notifications.length =
      dbOne.notifications.length + 2 ∧
    (send_job_notification dbOne ndOne 10 true).2.2 = 1 ∧
    (send_job_notification (send_job_notification dbOne ndOne 10 true).1 ndOne 20 true).2.2 = 1 :=
  C1_dispatch_not_idempotent dbOne ndOne 10 20 true true (by decide) (by decide) (by decide) rfl

/-! ## C6: the set of status values -/

/-- The status values the code actually assigns. -/
def validStatuses : List String := ["pending", "sent", "failed", "read"]

/-- A full ingestion run never touches the notifications table: the session
only stages job rows and scraping logs, and both the commit and the rollback
path leave `notifications` as it was. -/
theorem scrape_and_store_jobs_notifications (now : Int) (db : DB)
    (adapters : List (String × Except String (List RawPosting))) :
    (scrape_and_store_jobs now db adapters).1.notifications = db.notifications := by
  unfold scrape_and_store_jobs
  by_cases hok :
      commit_ok (processSites now
        { loadedJobs := db.job_listings, stagedInserts := [], stagedLogs := [],
          nextJobId := db.nextJobId } (scrape_all_sites adapters).1).1 = true <;>
    simp [hok]

/-- The exact shape of the notifications table after one dispatch call: either
untouched (failed lookup), or the old table plus one fresh record whose status
is "pending" for a non-email type and the send outcome for the email type. -/
theorem send_job_notification_notifs (db : DB) (nd : NotificationCreate)
    (now : Int) (emailOk : Bool)
    (hfresh : ∀ r ∈ db.notifications, r.id ≠ db.nextNotificationId) :
    (send_job_notification db nd now emailOk).1.notifications = db.notifications ∨
    ∃ s, ((s = "pending" ∧ nd.notification_type ≠ "email") ∨
          (s = (if emailOk then "sent" else "failed") ∧ nd.notification_type = "email")) ∧
      (send_job_notification db nd now emailOk).1.notifications =
        db.notifications ++
          [{ id := db.nextNotificationId, user_id := nd.user_id,
             job_listing_id := nd.job_listing_id,
             search_profile_id := nd.search_profile_id, sent_at := now,
             notification_type := nd.notification_type, status := s }] := by
  unfold send_job_notification
  rcases find_user db nd.user_id with _ | u
  · exact Or.inl rfl
  rcases find_job_listing db nd.job_listing_id with _ | jb
  · exact Or.inl rfl
  rcases find_search_profile db nd.search_profile_id with _ | sp
  · exact Or.inl rfl
  by_cases ht : nd.notification_type = "email"
  · refine Or.inr ⟨if emailOk then "sent" else "failed", Or.inr ⟨rfl, ht⟩, ?_⟩
    simp only [ht, if_pos]
    exact setStatusFirst_append_fresh db.notifications _ _ hfresh
  · refine Or.inr ⟨"pending", Or.inl ⟨rfl, ht⟩, ?_⟩
    simp [ht]

/-- C6 counterexample: mark_notification_read assigns the status "read",
which is none of pending, sent, failed — the claimed three-value invariant
does not hold under every operation. -/
def dbRead : DB :=
  { emptyDB with
    notifications := [{ id := 7, user_id := 1, job_listing_id := 1,
                        search_profile_id := 1, sent_at := 0,
                        notification_type := "email", status := "sent" }]
    nextNotificationId := 8 }

/-- C6 counterexample theorem. -/
theorem C6_counterexample :
    ((mark_notification_read dbRead 7).1.notifications.map fun r => r.status) = ["read"] ∧
    "read" ∉ ["pending", "sent", "failed"] := by
  exact ⟨rfl, by decide⟩

/-- C6 amended. Under every operation of the core the status of every
NotificationRecord stays in {pending, sent, failed, read}: the dispatcher
creates records as "pending" and moves them to "sent" or "failed" according
to the send outcome, mark_notification_read assigns "read", and ingestion
and the (inoperative) cleanup never touch a status. -/
theorem C6_status_values (db : DB) (nd : NotificationCreate) (now : Int)
    (emailOk : Bool) (nid : Nat)
    (adapters : List (String × Except String (List RawPosting)))
    (hvalid : ∀ r ∈ db.notifications, r.status ∈ validStatuses)
    (hfresh : ∀ r ∈ db.notifications, r.id ≠ db.nextNotificationId) :
    (∀ r ∈ (send_job_notification db nd now emailOk).1.notifications, r.status ∈ validStatuses) ∧
    (∀ r ∈ (mark_notification_read db nid).1.notifications, r.status ∈ validStatuses) ∧
    (∀ r ∈ (scrape_and_store_jobs now db adapters).1.notifications, r.status ∈ validStatuses) ∧
    (∀ r ∈ (cleanup_old_data db now).1.notifications, r.status ∈ validStatuses) ∧
    (nd.notification_type = "email" →
      ∀ r ∈ (send_job_notification db nd now emailOk).1.notifications,
        r.id = db.nextNotificationId → r.status = (if emailOk then "sent" else "failed")) := by
  refine ⟨?_, ?_, ?_, ?_, ?_⟩
  · rcases send_job_notification_notifs db nd now emailOk hfresh with h | ⟨s, hs, h⟩
    · rw [h]; exact hvalid
    · rw [h]
      intro r hr
      rcases List.mem_append.mp hr with hm | hm
      · exact hvalid r hm
      · rw [List.mem_singleton] at hm
        subst hm
        rcases hs with ⟨rfl, _⟩ | ⟨rfl, _⟩
        · simp [validStatuses]
        · by_cases hok : emailOk = true <;> simp [validStatuses, hok]
  · unfold mark_notification_read
    rcases hfind : db.notifications.find? (fun r => r.id == nid) with _ | _
    · rw [hfind]
      exact hvalid
    · rw [hfind]
      intro r hr
      rcases mem_setStatusFirst db.notifications nid "read" r hr with hm | ⟨r0, _, he⟩
      · exact hvalid r hm
      · subst he; simp [validStatuses]
  · rw [scrape_and_store_jobs_notifications]; exact hvalid
  · exact hvalid
  · intro ht
    rcases send_job_notification_notifs db nd now emailOk hfresh with h | ⟨s, hs, h⟩
    · rw [h]
      intro r hr hid
      exact absurd hid (hfresh r hr)
    · rw [h]
      intro r hr hid
      rcases List.mem_append.mp hr with hm | hm
      · exact absurd hid (hfresh r hm)
      · rw [List.mem_singleton] at hm
        subst hm
        rcases hs with ⟨_, hne⟩ | ⟨hse, _⟩
        · exact absurd ht hne
        · exact hse

/-- Witness for the amended C6: the record created by a successful email
dispatch on the concrete store carries one of the four status values. -/
theorem C6_status_values_witness :
    ({ id := 1, user_id := 1, job_listing_id := 1, search_profile_id := 1,
       sent_at := 0, notification_type := "email", status := "sent" } : Notification).status ∈ validStatuses :=
  (C6_status_values dbOne ndOne 0 true 7 [] (by decide) (by decide)).1 _ (by decide)

/-! ## C2: external-key uniqueness under ingestion -/

/-- Updating a row in place never changes the column of external keys. -/
theorem updateFirstByKey_keys (raw : RawPosting) (now : Int) :
    ∀ jobs : List JobListing,
      ((updateFirstByKey jobs raw now).map fun j => j.external_id) =
        jobs.map fun j => j.external_id := by
  intro jobs
  induction jobs with
  | nil => rfl
  | cons j js ih =>
    by_cases h : j.external_id = raw.external_id
    · simp [updateFirstByKey, h, update_job_listing]
    · simp [updateFirstByKey, h, ih]

/-- A missed lookup by key is exactly absence of the key. -/
theorem find_key_none_iff (jobs : List JobListing) (k : String) :
    jobs.find? (fun j => j.external_id == k) = none ↔
      k ∉ jobs.map fun j => j.external_id := by
  rw [List.find?_eq_none]
  simp [List.mem_map]

/-- Ingesting a record whose key is absent from the committed rows stages
exactly one INSERT; the committed rows are untouched. -/
theorem processRaw_of_absent (now : Int) (s : SessionState) (raw : RawPosting)
    (h : s.loadedJobs.find? (fun j => j.external_id == raw.external_id) = none) :
    processRaw now s raw =
      ({ s with
          stagedInserts := s.stagedInserts ++ [create_job_listing s.nextJobId raw]
          nextJobId := s.nextJobId + 1 }, true) := by
  unfold processRaw
  rw [h]

/-- Ingesting a record whose key is committed mutates that row in place. -/
theorem processRaw_of_present (now : Int) (s : SessionState) (raw : RawPosting)
    (j0 : JobListing)
    (h : s.loadedJobs.find? (fun j => j.external_id == raw.external_id) = some j0) :
    processRaw now s raw =
      ({ s with loadedJobs := updateFirstByKey s.loadedJobs raw now }, false) := by
  unfold processRaw
  rw [h]

/-- After an in-place update the looked-up row is the found row with its
mutable fields overwritten and its ingestion timestamp refreshed. -/
theorem updateFirstByKey_find (raw : RawPosting) (now : Int) :
    ∀ (jobs : List JobListing) (j0 : JobListing),
      jobs.find? (fun j => j.external_id == raw.external_id) = some j0 →
      (updateFirstByKey jobs raw now).find? (fun j => j.external_id == raw.external_id) =
        some (update_job_listing j0 raw now) := by
  intro jobs
  induction jobs with
  | nil => intro j0 h; exact absurd h (by simp)
  | cons j js ih =>
    intro j0 h
    by_cases hj : j.external_id = raw.external_id
    · rw [List.find?_cons_of_pos _ (by simp [hj])] at h
      injection h with h
      subst h
      rw [updateFirstByKey, if_pos hj]
      rw [List.find?_cons_of_pos _ (by simp [update_job_listing, hj])]
    · rw [List.find?_cons_of_neg _ (by simp [hj])] at h
      rw [updateFirstByKey, if_neg hj, List.find?_cons_of_neg _ (by simp [hj])]
      exact ih j0 h

/-- The committed-rows key column is invariant under one ingestion step. -/
theorem processRaw_loaded_keys (now : Int) (s : SessionState) (raw : RawPosting) :
    ((processRaw now s raw).1.loadedJobs.map fun j => j.external_id) =
      s.loadedJobs.map fun j => j.external_id := by
  rcases hfind : s.loadedJobs.find? (fun j => j.external_id == raw.external_id) with _ | j0
  · rw [processRaw_of_absent now s raw hfind]
  · rw [processRaw_of_present now s raw j0 hfind]
    exact updateFirstByKey_keys raw now s.loadedJobs

/-- Unfolding equation for one step of the per-site loop. -/
theorem processSiteJobs_cons (now : Int) (s : SessionState) (raw : RawPosting)
    (raws : List RawPosting) :
    processSiteJobs now s (raw :: raws) =
      (if (processRaw now s raw).2
       then ((processSiteJobs now (processRaw now s raw).1 raws).1,
             (processSiteJobs now (processRaw now s raw).1 raws).2.1 + 1,
             (processSiteJobs now (processRaw now s raw).1 raws).2.2)
       else ((processSiteJobs now (processRaw now s raw).1 raws).1,
             (processSiteJobs now (processRaw now s raw).1 raws).2.1,
             (processSiteJobs now (processRaw now s raw).1 raws).2.2 + 1)) := rfl

/-- The session component of the per-site loop is branch-independent. -/
theorem processSiteJobs_cons_fst (now : Int) (s : SessionState) (raw : RawPosting)
    (raws : List RawPosting) :
    (processSiteJobs now s (raw :: raws)).1 =
      (processSiteJobs now (processRaw now s raw).1 raws).1 := by
  rw [processSiteJobs_cons]
  by_cases h : (processRaw now s raw).2 = true <;> simp [h]

/-- The committed-rows key column is invariant across a site batch. -/
theorem processSiteJobs_loaded_keys (now : Int) :
    ∀ (raws : List RawPosting) (s : SessionState),
      ((processSiteJobs now s raws).1.loadedJobs.map fun j => j.external_id) =
        s.loadedJobs.map fun j => j.external_id := by
  intro raws
  induction raws with
  | nil => intro s; rfl
  | cons raw rest ih =>
    intro s
    rw [processSiteJobs_cons_fst, ih, processRaw_loaded_keys]

/-- The committed-rows key column is invariant across the whole run. -/
theorem processSites_loaded_keys (now : Int) :
    ∀ (sites : List (String × List RawPosting)) (s : SessionState),
      ((processSites now s sites).1.loadedJobs.map fun j => j.external_id) =
        s.loadedJobs.map fun j => j.external_id := by
  intro sites
  induction sites with
  | nil => intro s; rfl
  | cons sj rest ih =>
    intro s
    obtain ⟨site, jobs⟩ := sj
    exact (ih _).trans (processSiteJobs_loaded_keys now jobs s)

/-- What the unique-index check on commit guarantees: staged INSERT keys are
pairwise distinct and disjoint from the committed keys. -/
theorem commit_ok_spec (s : SessionState) (h : commit_ok s = true) :
    (s.stagedInserts.map fun j => j.external_id).Nodup ∧
    ∀ k ∈ s.stagedInserts.map fun j => j.external_id,
      k ∉ s.loadedJobs.map fun j => j.external_id := by
  rw [commit_ok, Bool.and_eq_true] at h
  obtain ⟨h1, h2⟩ := h
  refine ⟨of_decide_eq_true h1, ?_⟩
  rw [List.all_eq_true] at h2
  intro k hk hk2
  rw [List.mem_map] at hk hk2
  obtain ⟨j, hj, rfl⟩ := hk
  obtain ⟨j0, hj0, he⟩ := hk2
  have h3 := h2 j hj
  have h4 : (s.loadedJobs.any fun j1 => j1.external_id == j.external_id) = false := by
    revert h3
    cases s.loadedJobs.any fun j1 => j1.external_id == j.external_id <;> simp
  rw [List.any_eq_false] at h4
  exact (h4 j0 hj0) (by simp [he])

/-- A successful commit yields a table with pairwise-distinct external keys
whenever the committed keys were distinct. -/
theorem commit_keys_nodup (s : SessionState)
    (hl : (s.loadedJobs.map fun j => j.external_id).Nodup)
    (hok : commit_ok s = true) :
    (((s.loadedJobs ++ s.stagedInserts).map fun j => j.external_id)).Nodup := by
  obtain ⟨h1, h2⟩ := commit_ok_spec s hok
  rw [List.map_append, List.nodup_append]
  exact ⟨hl, h1, fun a ha hb => h2 a hb ha⟩

/-- A full ingestion invocation preserves distinctness of external keys: the
commit either succeeds with the unique index intact or rolls everything back. -/
theorem scrape_and_store_jobs_keys_nodup (now : Int) (db : DB)
    (adapters : List (String × Except String (List RawPosting)))
    (h : (db.job_listings.map fun j => j.external_id).Nodup) :
    (((scrape_and_store_jobs now db adapters).1.job_listings.map fun j => j.external_id)).Nodup := by
  unfold scrape_and_store_jobs
  by_cases hok : commit_ok (processSites now
      { loadedJobs := db.job_listings, stagedInserts := [], stagedLogs := [],
        nextJobId := db.nextJobId } (scrape_all_sites adapters).1).1 = true
  · simp only [hok, if_true]
    refine commit_keys_nodup _ ?_ hok
    rw [processSites_loaded_keys]
    exact h
  · simp only [hok, if_false]
    exact h

/-- An ingestion run whose only fetched record has an absent key: the run
commits one fresh row and counts it as new. -/
theorem single_run_insert (now : Int) (db : DB) (site : String) (raw : RawPosting)
    (hfind : db.job_listings.find? (fun j => j.external_id == raw.external_id) = none) :
    scrape_and_store_jobs now db [(site, Except.ok [raw])] =
      ({ db with
          job_listings := db.job_listings ++ [create_job_listing db.nextJobId raw]
          scraping_logs := db.scraping_logs ++
            [{ source_site := site, jobs_found := 1, jobs_new := 1, jobs_updated := 0 }]
          nextJobId := db.nextJobId + 1 },
       Except.ok
         { total_jobs_found := 1, total_jobs_new := 1, total_jobs_updated := 0,
           errors := [], sites_scraped := [site] },
       []) := by
  have hany : (db.job_listings.any fun j1 => j1.external_id == raw.external_id) = false := by
    rw [List.any_eq_false]
    intro x hx
    simpa using List.find?_eq_none.mp hfind x hx
  simp [scrape_and_store_jobs, scrape_all_sites, processSites, processSiteJobs,
    processRaw, commit_ok, hfind, hany, create_job_listing]

/-- An ingestion run whose only fetched record has a committed key: the run
commits the in-place update and counts it as updated. -/
theorem single_run_update (now : Int) (db : DB) (site : String) (raw : RawPosting)
    (j0 : JobListing)
    (hfind : db.job_listings.find? (fun j => j.external_id == raw.external_id) = some j0) :
    scrape_and_store_jobs now db [(site, Except.ok [raw])] =
      ({ db with
          job_listings := updateFirstByKey db.job_listings raw now
          scraping_logs := db.scraping_logs ++
            [{ source_site := site, jobs_found := 1, jobs_new := 0, jobs_updated := 1 }] },
       Except.ok
         { total_jobs_found := 1, total_jobs_new := 0, total_jobs_updated := 1,
           errors := [], sites_scraped := [site] },
       []) := by
  simp [scrape_and_store_jobs, scrape_all_sites, processSites, processSiteJobs,
    processRaw, commit_ok, hfind]

/-- A sequence of N ingestion runs, each fetching the same single record:
this is how the same raw posting is re-ingested over time, one committed run
per scheduler tick. -/
def ingest_runs (now : Int) (site : String) (raw : RawPosting) : Nat → DB → DB
  | 0, db => db
  | n + 1, db =>
    ingest_runs now site raw n (scrape_and_store_jobs now db [(site, Except.ok [raw])]).1

/-- Once its key is committed, further runs over the same record never change
the key column. -/
theorem ingest_runs_present_keys (now : Int) (site : String) (raw : RawPosting) :
    ∀ (n : Nat) (db : DB),
      raw.external_id ∈ (db.job_listings.map fun j => j.external_id) →
      ((ingest_runs now site raw n db).job_listings.map fun j => j.external_id) =
        db.job_listings.map fun j => j.external_id := by
  intro n
  induction n with
  | zero => intro db _; rfl
  | succ m ih =>
    intro db hmem
    have hfind : ∃ j0,
        db.job_listings.find? (fun j => j.external_id == raw.external_id) = some j0 := by
      rcases hf : db.job_listings.find? (fun j => j.external_id == raw.external_id) with _ | j0
      · exact absurd hmem ((find_key_none_iff _ _).mp hf)
      · exact ⟨j0, hf⟩
    obtain ⟨j0, hj0⟩ := hfind
    have hrun := single_run_update now db site raw j0 hj0
    have hkeys : ((updateFirstByKey db.job_listings raw now).map fun j => j.external_id) =
        db.job_listings.map fun j => j.external_id :=
      updateFirstByKey_keys raw now db.job_listings
    show ((ingest_runs now site raw m
        (scrape_and_store_jobs now db [(site, Except.ok [raw])]).1).job_listings.map
          fun j => j.external_id) = db.job_listings.map fun j => j.external_id
    rw [hrun]
    dsimp only
    refine (ih _ ?_).trans hkeys
    show raw.external_id ∈ (updateFirstByKey db.job_listings raw now).map fun j => j.external_id
    rw [hkeys]
    exact hmem

/-- C2. Distinct external keys are preserved by every ingestion invocation,
whether the final commit succeeds or rolls the run back; a run over a record
with an absent key commits exactly one new row, counted as new; a run over a
record with a committed key commits an in-place update — same key column,
mutable fields overwritten and ingestion timestamp refreshed — counted as
updated; and re-ingesting the same record over N >= 1 successive runs leaves
exactly one row carrying its key. -/
theorem C2_external_key_uniqueness (db : DB)
    (hnodup : (db.job_listings.map fun j => j.external_id).Nodup) :
    (∀ (now : Int) (adapters : List (String × Except String (List RawPosting))),
      (((scrape_and_store_jobs now db adapters).1.job_listings.map fun j => j.external_id)).Nodup) ∧
    (∀ (now : Int) (site : String) (raw : RawPosting),
      db.job_listings.find? (fun j => j.external_id == raw.external_id) = none →
      (scrape_and_store_jobs now db [(site, Except.ok [raw])]).2.1 =
        Except.ok { total_jobs_found := 1, total_jobs_new := 1, total_jobs_updated := 0,
                    errors := [], sites_scraped := [site] } ∧
      (((scrape_and_store_jobs now db [(site, Except.ok [raw])]).1.job_listings.map
          fun j => j.external_id).count raw.external_id = 1) ∧
      (scrape_and_store_jobs now db [(site, Except.ok [raw])]).1.job_listings.length =
        db.job_listings.length + 1) ∧
    (∀ (now : Int) (site : String) (raw : RawPosting) (j0 : JobListing),
      db.job_listings.find? (fun j => j.external_id == raw.external_id) = some j0 →
      (scrape_and_store_jobs now db [(site, Except.ok [raw])]).2.1 =
        Except.ok { total_jobs_found := 1, total_jobs_new := 0, total_jobs_updated := 1,
                    errors := [], sites_scraped := [site] } ∧
      (((scrape_and_store_jobs now db [(site, Except.ok [raw])]).1.job_listings.map
          fun j => j.external_id) = db.job_listings.map fun j => j.external_id) ∧
      (scrape_and_store_jobs now db [(site, Except.ok [raw])]).1.job_listings.find?
          (fun j => j.external_id == raw.external_id) =
        some (update_job_listing j0 raw now)) ∧
    (∀ (now : Int) (site : String) (raw : RawPosting) (N : Nat), 1 ≤ N →
      raw.external_id ∉ (db.job_listings.map fun j => j.external_id) →
      (((ingest_runs now site raw N db).job_listings.map fun j => j.external_id).count
          raw.external_id = 1)) := by
  refine ⟨?_, ?_, ?_, ?_⟩
  · intro now adapters
    exact scrape_and_store_jobs_keys_nodup now db adapters hnodup
  · intro now site raw h
    have hk : raw.external_id ∉ db.job_listings.map fun j => j.external_id :=
      (find_key_none_iff _ _).mp h
    rw [single_run_insert now db site raw h]
    refine ⟨rfl, ?_, by simp⟩
    simp [List.count_append, create_job_listing, List.count_eq_zero.mpr hk]
  · intro now site raw j0 h
    rw [single_run_update now db site raw j0 h]
    exact ⟨rfl, updateFirstByKey_keys raw now db.job_listings,
      updateFirstByKey_find raw now db.job_listings j0 h⟩
  · intro now site raw N h1 hnotmem
    obtain ⟨m, rfl⟩ : ∃ m, N = m + 1 := ⟨N - 1, (Nat.succ_pred_eq_of_pos h1).symm⟩
    have hfind : db.job_listings.find? (fun j => j.external_id == raw.external_id) = none :=
      (find_key_none_iff _ _).mpr hnotmem
    have hrun := single_run_insert now db site raw hfind
    show (((ingest_runs now site raw m
        (scrape_and_store_jobs now db [(site, Except.ok [raw])]).1).job_listings.map
          fun j => j.external_id).count raw.external_id = 1)
    rw [hrun]
    dsimp only
    rw [ingest_runs_present_keys now site raw m _ (by simp [create_job_listing])]
    simp [List.count_append, create_job_listing, List.count_eq_zero.mpr hnotmem]

/-- Witness for C2: one run ingests a fresh record into the empty store,
commits, counts it as new and leaves exactly one row with its key. -/
theorem C2_external_key_uniqueness_witness :
    (scrape_and_store_jobs 0 emptyDB [("linkedin", Except.ok [rawA])]).2.1 =
      Except.ok { total_jobs_found := 1, total_jobs_new := 1, total_jobs_updated := 0,
                  errors := [], sites_scraped := ["linkedin"] } ∧
    (((scrape_and_store_jobs 0 emptyDB [("linkedin", Except.ok [rawA])]).1.job_listings.map
        fun j => j.external_id).count rawA.external_id = 1) ∧
    (scrape_and_store_jobs 0 emptyDB [("linkedin", Except.ok [rawA])]).1.job_listings.length =
      emptyDB.job_listings.length + 1 :=
  (C2_external_key_uniqueness emptyDB (by decide)).2.1 0 "linkedin" rawA rfl

/-! ## C3: isolation of source failure -/

/-- An ingestion step never removes a key from the session view. -/
theorem processRaw_session_key_mono (now : Int) (s : SessionState) (raw : RawPosting)
    (k : String)
    (h : k ∈ (s.loadedJobs ++ s.stagedInserts).map fun j => j.external_id) :
    k ∈ ((processRaw now s raw).1.loadedJobs ++
          (processRaw now s raw).1.stagedInserts).map fun j => j.external_id := by
  rcases hfind : s.loadedJobs.find? (fun j => j.external_id == raw.external_id) with _ | j0
  · rw [processRaw_of_absent now s raw hfind]
    dsimp only
    simp only [List.map_append, List.mem_append] at h ⊢
    tauto
  · rw [processRaw_of_present now s raw j0 hfind]
    dsimp only
    simp only [List.map_append, List.mem_append, updateFirstByKey_keys] at h ⊢
    exact h

/-- After ingesting a record its external key is in the session view. -/
theorem processRaw_session_own_key (now : Int) (s : SessionState) (raw : RawPosting) :
    raw.external_id ∈ ((processRaw now s raw).1.loadedJobs ++
        (processRaw now s raw).1.stagedInserts).map fun j => j.external_id := by
  rcases hfind : s.loadedJobs.find? (fun j => j.external_id == raw.external_id) with _ | j0
  · rw [processRaw_of_absent now s raw hfind]
    dsimp only
    simp [create_job_listing]
  · have hj0 := List.mem_of_find?_eq_some hfind
    have hp := List.find?_some hfind
    rw [processRaw_of_present now s raw j0 hfind]
    dsimp only
    simp only [List.map_append, List.mem_append, updateFirstByKey_keys]
    exact Or.inl (List.mem_map.mpr ⟨j0, hj0, by simpa using hp⟩)

/-- A site batch never removes a key from the session view. -/
theorem processSiteJobs_session_key_mono (now : Int) (k : String) :
    ∀ (raws : List RawPosting) (s : SessionState),
      k ∈ ((s.loadedJobs ++ s.stagedInserts).map fun j => j.external_id) →
      k ∈ (((processSiteJobs now s raws).1.loadedJobs ++
            (processSiteJobs now s raws).1.stagedInserts).map fun j => j.external_id) := by
  intro raws
  induction raws with
  | nil => intro s h; exact h
  | cons raw rest ih =>
    intro s h
    rw [processSiteJobs_cons_fst]
    exact ih _ (processRaw_session_key_mono now s raw k h)

/-- Every record of a processed site batch leaves its key in the session. -/
theorem processSiteJobs_session_contains (now : Int) :
    ∀ (raws : List RawPosting) (s : SessionState) (raw : RawPosting), raw ∈ raws →
      raw.external_id ∈ (((processSiteJobs now s raws).1.loadedJobs ++
          (processSiteJobs now s raws).1.stagedInserts).map fun j => j.external_id) := by
  intro raws
  induction raws with
  | nil => intro s raw h; exact absurd h (List.not_mem_nil raw)
  | cons r rest ih =>
    intro s raw h
    rw [processSiteJobs_cons_fst]
    rcases List.mem_cons.mp h with rfl | h2
    · exact processSiteJobs_session_key_mono now raw.external_id rest _
        (processRaw_session_own_key now s raw)
    · exact ih _ raw h2

/-- The whole-run loop never removes a key from the session view. -/
theorem processSites_session_key_mono (now : Int) (k : String) :
    ∀ (sites : List (String × List RawPosting)) (s : SessionState),
      k ∈ ((s.loadedJobs ++ s.stagedInserts).map fun j => j.external_id) →
      k ∈ (((processSites now s sites).1.loadedJobs ++
            (processSites now s sites).1.stagedInserts).map fun j => j.external_id) := by
  intro sites
  induction sites with
  | nil => intro s h; exact h
  | cons sj rest ih =>
    intro s h
    obtain ⟨site, jobs⟩ := sj
    exact ih _ (processSiteJobs_session_key_mono now k jobs s h)

/-- Every record of every successfully fetched site ends the run in the
session view, ready to be committed. -/
theorem processSites_session_contains (now : Int) :
    ∀ (sites : List (String × List RawPosting)) (s : SessionState) (site : String)
      (raws : List RawPosting) (raw : RawPosting),
      (site, raws) ∈ sites → raw ∈ raws →
      raw.external_id ∈ (((processSites now s sites).1.loadedJobs ++
          (processSites now s sites).1.stagedInserts).map fun j => j.external_id) := by
  intro sites
  induction sites with
  | nil => intro s site raws raw h _; exact absurd h (List.not_mem_nil _)
  | cons sj rest ih =>
    intro s site raws raw h hraw
    rcases List.mem_cons.mp h with rfl | h2
    · exact processSites_session_key_mono now raw.external_id rest _
        (processSiteJobs_session_contains now raws s raw hraw)
    · obtain ⟨s2, jobs2⟩ := sj
      exact ih _ site raws raw h2 hraw

/-- A successfully fetched site appears with its jobs in the factory results. -/
theorem scrape_all_sites_ok_mem :
    ∀ (adapters : List (String × Except String (List RawPosting))) (site : String)
      (jobs : List RawPosting),
      (site, Except.ok jobs) ∈ adapters → (site, jobs) ∈ (scrape_all_sites adapters).1 := by
  intro adapters
  induction adapters with
  | nil => intro site jobs h; exact absurd h (List.not_mem_nil _)
  | cons a rest ih =>
    intro site jobs h
    rcases List.mem_cons.mp h with rfl | h2
    · exact List.mem_cons_self _ _
    · obtain ⟨s2, r2⟩ := a
      rcases r2 with e2 | js2
      · exact List.mem_cons_of_mem _ (ih site jobs h2)
      · exact List.mem_cons_of_mem _ (ih site jobs h2)

/-- A raised adapter produces exactly the factory log line. -/
theorem scrape_all_sites_error_mem :
    ∀ (adapters : List (String × Except String (List RawPosting))) (site e : String),
      (site, Except.error e) ∈ adapters →
      ("Error scraping " ++ site ++ ": " ++ e) ∈ (scrape_all_sites adapters).2 := by
  intro adapters
  induction adapters with
  | nil => intro site e h; exact absurd h (List.not_mem_nil _)
  | cons a rest ih =>
    intro site e h
    rcases List.mem_cons.mp h with rfl | h2
    · exact List.mem_cons_self _ _
    · obtain ⟨s2, r2⟩ := a
      rcases r2 with e2 | js2
      · exact List.mem_cons_of_mem _ (ih site e h2)
      · exact ih site e h2

/-- C3 counterexample input: adapter A raises, adapter B returns one record. -/
def adaptersC3 : List (String × Except String (List RawPosting)) :=
  [("siteA", Except.error "boom"), ("siteB", Except.ok [rawB])]

/-- C3 counterexample. After the run with a failing source A and a
successful source B, the summary error list is empty — A's exception was
swallowed inside the factory and never recorded there — even though B's
record is committed. The claim that the adapter error appears in the
returned error list is false. -/
theorem C3_counterexample :
    (scrape_and_store_jobs 0 emptyDB adaptersC3).2.1 =
      Except.ok { total_jobs_found := 1, total_jobs_new := 1, total_jobs_updated := 0,
                  errors := [], sites_scraped := ["siteA", "siteB"] } ∧
    "b1" ∈ ((scrape_and_store_jobs 0 emptyDB adaptersC3).1.job_listings.map
        fun j => j.external_id) := by
  exact ⟨rfl, by decide⟩

/-- C3 amended. When one source raises and another succeeds in a run, the
adapter exception is caught inside the factory and turned into a log line
only; whenever the run's single end-of-run commit succeeds, the successful
source's postings are in the store and the summary's error list — fed only
by record- and site-level processing failures — is empty, so the adapter
error never appears in it; and when the commit fails (IntegrityError on
duplicate new keys) the whole run is rolled back and the store is unchanged. -/
theorem C3_failed_source_isolated (now : Int) (db : DB)
    (adapters : List (String × Except String (List RawPosting)))
    (a e b : String) (raws : List RawPosting) (raw : RawPosting)
    (ha : (a, Except.error e) ∈ adapters)
    (hb : (b, Except.ok raws) ∈ adapters)
    (hraw : raw ∈ raws) :
    ("Error scraping " ++ a ++ ": " ++ e) ∈ (scrape_and_store_jobs now db adapters).2.2 ∧
    (∀ s, (scrape_and_store_jobs now db adapters).2.1 = Except.ok s →
      s.errors = [] ∧
      raw.external_id ∈ ((scrape_and_store_jobs now db adapters).1.job_listings.map
        fun j => j.external_id)) ∧
    (∀ msg, (scrape_and_store_jobs now db adapters).2.1 = Except.error msg →
      (scrape_and_store_jobs now db adapters).1 = db) := by
  have hkey := processSites_session_contains now (scrape_all_sites adapters).1
    { loadedJobs := db.job_listings, stagedInserts := [], stagedLogs := [],
      nextJobId := db.nextJobId } b raws raw
    (scrape_all_sites_ok_mem adapters b raws hb) hraw
  unfold scrape_and_store_jobs
  by_cases hok : commit_ok (processSites now
      { loadedJobs := db.job_listings, stagedInserts := [], stagedLogs := [],
        nextJobId := db.nextJobId } (scrape_all_sites adapters).1).1 = true
  · simp only [hok, if_true]
    refine ⟨scrape_all_sites_error_mem adapters a e ha, ?_, ?_⟩
    · intro s hs
      injection hs with hs
      subst hs
      exact ⟨rfl, hkey⟩
    · intro msg hmsg
      exact absurd hmsg (by simp)
  · simp only [hok, if_false]
    refine ⟨scrape_all_sites_error_mem adapters a e ha, ?_, ?_⟩
    · intro s hs
      exact absurd hs (by simp)
    · intro msg _
      rfl

/-- Witness for the amended C3 on the concrete two-adapter run, whose commit
succeeds. -/
theorem C3_failed_source_isolated_witness :
    ("Error scraping " ++ "siteA" ++ ": " ++ "boom") ∈
      (scrape_and_store_jobs 0 emptyDB adaptersC3).2.2 ∧
    rawB.external_id ∈ ((scrape_and_store_jobs 0 emptyDB adaptersC3).1.job_listings.map
      fun j => j.external_id) := by
  have h := C3_failed_source_isolated 0 emptyDB adaptersC3 "siteA" "boom" "siteB" [rawB] rawB
    (by simp [adaptersC3]) (by simp [adaptersC3]) (by simp)
  exact ⟨h.1, (h.2.1
    { total_jobs_found := 1, total_jobs_new := 1, total_jobs_updated := 0,
      errors := [], sites_scraped := ["siteA", "siteB"] } rfl).2⟩

/-! ## C5: matcher semantics -/

/-- Membership in the matcher result is membership in the store plus the
conjunction of the clause booleans. -/
theorem mem_find_new_jobs (db : DB) (p : SearchProfile) (t : Int) (j : JobListing) :
    j ∈ find_new_jobs_for_profile db p t ↔
      j ∈ db.job_listings ∧
        (j.is_active && decide (t ≤ j.scraped_at) && keyword_ok p j && location_ok p j &&
          job_type_ok p j && experience_ok p j && salary_filter p.salary_min p.salary_max j) = true := by
  unfold find_new_jobs_for_profile
  rw [(List.mergeSort_perm _ _).mem_iff, List.mem_filter]

/-- C5. For a profile with a non-empty keyword list: every returned posting
is active and inside the lookback window; among stored postings that are
active, inside the window and pass the location, type, level and salary
clauses, membership in the result is exactly the existence of a keyword that
is a case-insensitive substring of title, description or company; and the
result is ordered most-recently-ingested first. -/
theorem C5_matcher_semantics (db : DB) (p : SearchProfile) (t : Int)
    (hk : p.keywords ≠ []) :
    (∀ j ∈ find_new_jobs_for_profile db p t, j.is_active = true ∧ t ≤ j.scraped_at) ∧
    (∀ j, j ∈ db.job_listings → j.is_active = true → t ≤ j.scraped_at →
      location_ok p j = true → job_type_ok p j = true → experience_ok p j = true →
      salary_filter p.salary_min p.salary_max j = true →
      (j ∈ find_new_jobs_for_profile db p t ↔
        ∃ kw ∈ p.keywords,
          (ilike j.title kw = true ∨ ilike j.description kw = true ∨ ilike j.company kw = true))) ∧
    (find_new_jobs_for_profile db p t).Pairwise (fun a b => b.scraped_at ≤ a.scraped_at) := by
  have hne : p.keywords.isEmpty = false := by
    cases hkk : p.keywords
    · exact absurd hkk hk
    · rfl
  have hkeq : ∀ j, keyword_ok p j = keyword_filter p j := by
    intro j
    simp [keyword_ok, hne]
  refine ⟨?_, ?_, ?_⟩
  · intro j hj
    rw [mem_find_new_jobs] at hj
    have hb := hj.2
    simp only [Bool.and_eq_true, decide_eq_true_eq] at hb
    exact ⟨hb.1.1.1.1.1.1, hb.1.1.1.1.1.2⟩
  · intro j hjdb hact htime hloc htype hexp hsal
    rw [mem_find_new_jobs]
    simp only [Bool.and_eq_true, decide_eq_true_eq]
    constructor
    · rintro ⟨-, hb⟩
      have hkw : keyword_filter p j = true := by
        rw [← hkeq j]
        exact hb.1.1.1.1.2
      rw [keyword_filter, List.any_eq_true] at hkw
      obtain ⟨kw, hkwmem, hor⟩ := hkw
      refine ⟨kw, hkwmem, ?_⟩
      simpa [Bool.or_eq_true, or_assoc] using hor
    · rintro ⟨kw, hkwmem, hor⟩
      refine ⟨hjdb, ⟨⟨⟨⟨⟨⟨hact, htime⟩, ?_⟩, hloc⟩, htype⟩, hexp⟩, hsal⟩⟩
      rw [hkeq j, keyword_filter, List.any_eq_true]
      exact ⟨kw, hkwmem, by simpa [Bool.or_eq_true, or_assoc] using hor⟩
  · have hs := @List.sorted_mergeSort JobListing
      (fun a b => decide (b.scraped_at ≤ a.scraped_at))
      (fun a b c hab hbc => by
        simp only [decide_eq_true_eq] at hab hbc ⊢
        exact le_trans hbc hab)
      (fun a b => by
        simp only [Bool.or_eq_true, decide_eq_true_eq]
        exact le_total b.scraped_at a.scraped_at)
      (db.job_listings.filter fun j =>
        j.is_active && decide (t ≤ j.scraped_at)
        && keyword_ok p j && location_ok p j && job_type_ok p j
        && experience_ok p j && salary_filter p.salary_min p.salary_max j)
    refine List.Pairwise.imp ?_ hs
    intro a b hab
    simpa using hab

/-- Witness for C5 on the concrete store and profile. -/
theorem C5_matcher_semantics_witness :
    (find_new_jobs_for_profile dbOne profileOne 0).Pairwise
      (fun a b => b.scraped_at ≤ a.scraped_at) :=
  (C5_matcher_semantics dbOne profileOne 0 (by decide)).2.2
